import Mathlib

/-!
Verification of the request-to-query compiler of `ocd_frontend/rest/views.py`:
`parse_search_request`, the Elasticsearch query construction inside `search`,
and `format_search_results`.

The embedding models the JSON-decoded Python values the view functions
manipulate.  Python dictionaries are association lists (a Python dict never
holds a duplicate key, so removal and update act on the unique matching
entry); numeric literals are modelled as integers (no claim here involves
floating point); Python `unicode` strings are `String`.  A raised exception
is an `Except.error`: `OcdApiError` is the view's own handled error type
(rendered as an HTTP 400), while `KeyError` / `TypeError` / `IndexError`
model uncaught Python exceptions escaping the handler.
-/

namespace OCD

/-- A JSON-decoded Python value as it arrives in `request.data`. -/
inductive Json : Type where
  | null : Json
  | bool : Bool → Json
  | int : Int → Json
  | str : String → Json
  | arr : List Json → Json
  | obj : List (String × Json) → Json

/-- `d[k]` on an association list: the value at the first matching key. -/
def lookupKey {α : Type} (k : String) : List (String × α) → Option α
  | [] => none
  | (k', v) :: rest => if k' = k then some v else lookupKey k rest

/-- `del d[k]` (key known present) / removal of a key: drops the entry for
`k`; a Python dict holds each key once. -/
def delKey {α : Type} (k : String) : List (String × α) → List (String × α)
  | [] => []
  | (k', v) :: rest => if k' = k then delKey k rest else (k', v) :: delKey k rest

/-- `d[k] = v`: replaces the value at `k` in place, or appends a new entry. -/
def setKey {α : Type} (k : String) (v : α) : List (String × α) → List (String × α)
  | [] => [(k, v)]
  | (k', v') :: rest => if k' = k then (k', v) :: rest else (k', v') :: setKey k v rest

/-- `d.get(k, default)`. -/
def dataGet (data : List (String × Json)) (k : String) (d : Json) : Json :=
  (lookupKey k data).getD d

/-- Python truthiness of a JSON-decoded value (`if not x`). -/
def pyFalsy : Json → Bool
  | .null => true
  | .bool b => !b
  | .int n => n == 0
  | .str s => s == ""
  | .arr xs => xs.isEmpty
  | .obj kvs => kvs.isEmpty

/-- A Python exception, as the view code can raise it: `OcdApiError` is the
application's handled error (message, HTTP status); the others model uncaught
built-in exceptions. -/
inductive PyExc : Type where
  | ocdApiError (msg : String) (status : Nat) : PyExc
  | keyError (key : String) : PyExc
  | typeError : PyExc
  | indexError : PyExc
  deriving DecidableEq, Repr

/-- How `int(x)` fails: `ValueError` (caught by the view) on an unparsable
string, `TypeError` (uncaught) on `None`, lists and dicts. -/
inductive PyIntErr : Type where
  | valueError : PyIntErr
  | typeError : PyIntErr
  deriving DecidableEq, Repr

/-- Value of a list of decimal digit characters. -/
def digitsVal (cs : List Char) : Nat :=
  cs.foldl (fun a c => 10 * a + (c.toNat - 48)) 0

/-- The digits of an integer literal body, or `none`. -/
def digitsToInt (cs : List Char) : Option Int :=
  if cs.isEmpty then none
  else if cs.all Char.isDigit then some (digitsVal cs) else none

/-- An ASCII whitespace character, as Python `int(s)` strips them. -/
def isPySpace (c : Char) : Bool :=
  c == ' ' || c == '\t' || c == '\n' || c == '\r' || c == '\x0b' || c == '\x0c'

/-- The characters of `s` with surrounding whitespace stripped. -/
def pyStrip (s : String) : List Char :=
  ((s.toList.dropWhile isPySpace).reverse.dropWhile isPySpace).reverse

/-- Python `int(s)` on a string: surrounding whitespace stripped, an optional
sign, then decimal digits. -/
def pyStrToInt (s : String) : Option Int :=
  match pyStrip s with
  | '+' :: rest => digitsToInt rest
  | '-' :: rest => (digitsToInt rest).map (fun n => -n)
  | cs => digitsToInt cs

/-- Python `int(x)` on a JSON-decoded value. -/
def pyInt : Json → Except PyIntErr Int
  | .int n => .ok n
  | .bool b => .ok (if b then 1 else 0)
  | .str s =>
    match pyStrToInt s with
    | some n => .ok n
    | none => .error .valueError
  | _ => .error .typeError

/-- Python `k in x` for a string `k`: key membership of a dict, element
membership of a list, substring of a string; `TypeError` otherwise. -/
def pyContains (k : String) : Json → Except PyExc Bool
  | .obj kvs => .ok (kvs.any (fun p => p.1 == k))
  | .arr xs => .ok (xs.any (fun v => match v with | .str s => s == k | _ => false))
  | .str s => .ok (decide ((s.splitOn k).length > 1))
  | _ => .error .typeError

/-- Python `x[k]` for a string key: dict lookup (`KeyError` when absent);
`TypeError` on any non-dict. -/
def pyGetItem (v : Json) (k : String) : Except PyExc Json :=
  match v with
  | .obj kvs =>
    match lookupKey k kvs with
    | some x => .ok x
    | none => .error (.keyError k)
  | _ => .error .typeError

/-- Lookup of a key inside a JSON object value (`none` on non-objects):
used only to state properties of built queries. -/
def jlook (v : Json) (k : String) : Option Json :=
  match v with
  | .obj kvs => lookupKey k kvs
  | _ => none

/-- A facet definition of `AVAILABLE_FACETS`: the Python dict whose single
key (`terms` or `date_histogram`) names the facet type. -/
abbrev FacetDef : Type := List (String × Json)

/-- The configuration surface the view reads from `current_app.config`. -/
structure Config : Type where
  defaultSearchSize : Int
  maxSearchSize : Int
  sortableFields : List String
  availableFacets : List (String × FacetDef)
  allowedDateIntervals : List String

def msgMissingQuery : String := "Missing 'query'"

def msgInvalidSize : String := "Invalid value for 'size'"

def msgSizeRange (maxSize : Int) : String :=
  "Value of 'size' must be between 0 and " ++ toString maxSize

def msgInvalidFrom : String := "Invalid value for 'from'"

def msgFromRange : String := "Value of 'from' must 0 or larger"

def msgInvalidSort (fields : List String) : String :=
  "Invalid value for 'sort', sortable fields are: " ++ String.intercalate ", " fields

def msgInvalidOrder : String := "Invalid value for 'order', must be asc or desc"

def msgFacetsObject : String := "'facets' should be an object"

def msgInvalidFacet (facet : String) : String :=
  "'" ++ facet ++ "' is not a valid facet"

def msgFacetSize (facet : String) : String :=
  "'facets." ++ facet ++ ".size' should be an integer"

def msgFacetInterval (facet : String) : String :=
  "'facets." ++ facet ++ ".interval' should be a strimg"

def msgIntervalValue (interval facet : String) : String :=
  "'" ++ interval ++ "' is an invalid interval for 'facets." ++ facet ++ ".interval'"

def msgFiltersObject : String := "'filters' should be an object"

def msgInvalidFilter (f : String) : String :=
  "'" ++ f ++ "' is not a valid filter"

def msgMissingTerms (f : String) : String :=
  "Missing 'filters." ++ f ++ ".terms'"

def msgTermsArray (f : String) : String :=
  "'filters." ++ f ++ ".terms' should be an array"

def msgTermsElems (f : String) : String :=
  "'filters." ++ f ++ ".terms' should only contain strings and integers"

def msgFilterObject (f : String) : String :=
  "'filters." ++ f ++ "' should be an object"

/-- views.py 9-11: `query = data.get('query', None); if not query: raise`. -/
def check_query (data : List (String × Json)) : Except PyExc Json :=
  let query := dataGet data "query" .null
  if pyFalsy query then .error (.ocdApiError msgMissingQuery 400) else .ok query

/-- views.py 13-20: `n_size = int(data.get('size', DEFAULT_SEARCH_SIZE))`
with the `ValueError` caught, then the range check against
`MAX_SEARCH_SIZE`. -/
def check_size (data : List (String × Json)) (cfg : Config) : Except PyExc Int :=
  let step : Except PyExc Int :=
    match lookupKey "size" data with
    | none => .ok cfg.defaultSearchSize
    | some v =>
      match pyInt v with
      | .ok n => .ok n
      | .error .valueError => .error (.ocdApiError msgInvalidSize 400)
      | .error .typeError => .error .typeError
  match step with
  | .error e => .error e
  | .ok n_size =>
    if n_size < 0 ∨ n_size > cfg.maxSearchSize then
      .error (.ocdApiError (msgSizeRange cfg.maxSearchSize) 400)
    else .ok n_size

/-- views.py 22-28: `n_from = int(data.get('from', 0))` with the `ValueError`
caught, then the non-negativity check. -/
def check_from (data : List (String × Json)) : Except PyExc Int :=
  let step : Except PyExc Int :=
    match lookupKey "from" data with
    | none => .ok 0
    | some v =>
      match pyInt v with
      | .ok n => .ok n
      | .error .valueError => .error (.ocdApiError msgInvalidFrom 400)
      | .error .typeError => .error .typeError
  match step with
  | .error e => .error e
  | .ok n_from =>
    if n_from < 0 then .error (.ocdApiError msgFromRange 400) else .ok n_from

/-- views.py 30-34: `sort = data.get('sort', '_score')`, then membership in
`SORTABLE_FIELDS` (a non-string never equals a member of that string list). -/
def check_sort (data : List (String × Json)) (cfg : Config) : Except PyExc String :=
  match dataGet data "sort" (.str "_score") with
  | .str s =>
    if s ∈ cfg.sortableFields then .ok s
    else .error (.ocdApiError (msgInvalidSort cfg.sortableFields) 400)
  | _ => .error (.ocdApiError (msgInvalidSort cfg.sortableFields) 400)

/-- views.py 36-38: `order = data.get('order', 'desc')`, then membership in
`['asc', 'desc']`. -/
def check_order (data : List (String × Json)) : Except PyExc String :=
  match dataGet data "order" (.str "desc") with
  | .str s =>
    if s = "asc" ∨ s = "desc" then .ok s
    else .error (.ocdApiError msgInvalidOrder 400)
  | _ => .error (.ocdApiError msgInvalidOrder 400)

/-- views.py 56-77, one iteration's override step.  `fdef` is the shared
schema dict `available_facets[facet]` that `facets[facet]` now aliases;
`f_type = facets[facet].keys()[0]` is its first key, and an applied override
(`facets[facet][f_type]['size'] = size`, likewise `interval`) writes through
the alias into that shared dict, whose updated value is returned. -/
def apply_facet_overrides (facet : String) (facet_opts : Json) (fdef : FacetDef)
    (cfg : Config) : Except PyExc FacetDef :=
  match fdef with
  | [] => .error .indexError
  | (f_type, inner) :: rest =>
    if f_type = "terms" then
      match pyContains "size" facet_opts with
      | .error e => .error e
      | .ok false => .ok fdef
      | .ok true =>
        match pyGetItem facet_opts "size" with
        | .error e => .error e
        | .ok size =>
          match size with
          | .int n =>
            match inner with
            | .obj ikvs => .ok ((f_type, .obj (setKey "size" (.int n) ikvs)) :: rest)
            | _ => .error .typeError
          | _ => .error (.ocdApiError (msgFacetSize facet) 400)
    else if f_type = "date_histogram" then
      match pyContains "interval" facet_opts with
      | .error e => .error e
      | .ok false => .ok fdef
      | .ok true =>
        match pyGetItem facet_opts "interval" with
        | .error e => .error e
        | .ok interval =>
          match interval with
          | .str s =>
            if s ∈ cfg.allowedDateIntervals then
              match inner with
              | .obj ikvs => .ok ((f_type, .obj (setKey "interval" (.str s) ikvs)) :: rest)
              | _ => .error .typeError
            else .error (.ocdApiError (msgIntervalValue s facet) 400)
          | _ => .error (.ocdApiError (msgFacetInterval facet) 400)
    else .ok fdef

/-- views.py 51-77, the `for facet, facet_opts in req_facets.iteritems()`
loop: `facets` accumulates aliases of the (possibly just-mutated) schema
dicts, and the shared `available_facets` mapping is threaded because an
override mutates it in place. -/
def facets_loop (cfg : Config) :
    List (String × Json) → List (String × FacetDef) → List (String × FacetDef) →
    Except PyExc (List (String × FacetDef) × List (String × FacetDef))
  | [], acc, af => .ok (acc, af)
  | (facet, facet_opts) :: rest, acc, af =>
    match lookupKey facet af with
    | none => .error (.ocdApiError (msgInvalidFacet facet) 400)
    | some fdef =>
      match apply_facet_overrides facet facet_opts fdef cfg with
      | .error e => .error e
      | .ok fdef' => facets_loop cfg rest (acc ++ [(facet, fdef')]) (setKey facet fdef' af)

/-- views.py 41-77: the `facets` block, from the
`type(req_facets) is not dict` check through the override loop. -/
def check_facets (data : List (String × Json)) (af : List (String × FacetDef))
    (cfg : Config) : Except PyExc (List (String × FacetDef) × List (String × FacetDef)) :=
  match dataGet data "facets" (.obj []) with
  | .obj entries => facets_loop cfg entries [] af
  | _ => .error (.ocdApiError msgFacetsObject 400)

/-- Whether every element is a `unicode` string or an `int`
(views.py 100-102; a Python `bool` is neither). -/
def terms_elems_ok : List Json → Bool
  | [] => true
  | .str _ :: rest => terms_elems_ok rest
  | .int _ :: rest => terms_elems_ok rest
  | _ => false

/-- views.py 93-108: the `terms` branch of the filter loop, producing
`{'terms': {available_facets[r_filter]['terms']['field']: filter_opts['terms']}}`. -/
def make_terms_filter (r_filter : String) (filter_opts : Json) (fdef : FacetDef) :
    Except PyExc Json :=
  match pyContains "terms" filter_opts with
  | .error e => .error e
  | .ok false => .error (.ocdApiError (msgMissingTerms r_filter) 400)
  | .ok true =>
    match pyGetItem filter_opts "terms" with
    | .error e => .error e
    | .ok t =>
      match t with
      | .arr terms =>
        if terms_elems_ok terms then
          match lookupKey "terms" fdef with
          | none => .error (.keyError "terms")
          | some tv =>
            match pyGetItem tv "field" with
            | .error e => .error e
            | .ok fv =>
              match fv with
              | .str field => .ok (.obj [("terms", .obj [(field, .arr terms)])])
              | _ => .error .typeError
        else .error (.ocdApiError (msgTermsElems r_filter) 400)
      | _ => .error (.ocdApiError (msgTermsArray r_filter) 400)

/-- views.py 109-122: the `date_histogram` branch of the filter loop,
producing `{'range': {field: {}}}` with `from`/`to` copied verbatim when
present. -/
def make_range_filter (r_filter : String) (filter_opts : Json) (fdef : FacetDef) :
    Except PyExc Json :=
  match filter_opts with
  | .obj okvs =>
    match lookupKey "date_histogram" fdef with
    | none => .error (.keyError "date_histogram")
    | some dv =>
      match pyGetItem dv "field" with
      | .error e => .error e
      | .ok fv =>
        match fv with
        | .str field =>
          let inner1 : List (String × Json) :=
            match lookupKey "from" okvs with
            | some v => setKey "from" v []
            | none => []
          let inner2 : List (String × Json) :=
            match lookupKey "to" okvs with
            | some v => setKey "to" v inner1
            | none => inner1
          .ok (.obj [("range", .obj [(field, .obj inner2)])])
        | _ => .error .typeError
  | _ => .error (.ocdApiError (msgFilterObject r_filter) 400)

/-- views.py 86-123: the
`for r_filter, filter_opts in requested_filters.iteritems()` loop.  `af` is
the `available_facets` mapping as the facet block left it; this loop only
reads it. -/
def filters_loop (af : List (String × FacetDef)) :
    List (String × Json) → List Json → Except PyExc (List Json)
  | [], acc => .ok acc
  | (r_filter, filter_opts) :: rest, acc =>
    match lookupKey r_filter af with
    | none => .error (.ocdApiError (msgInvalidFilter r_filter) 400)
    | some fdef =>
      match fdef with
      | [] => .error .indexError
      | (f_type, _) :: _ =>
        if f_type = "terms" then
          match make_terms_filter r_filter filter_opts fdef with
          | .error e => .error e
          | .ok f => filters_loop af rest (acc ++ [f])
        else if f_type = "date_histogram" then
          match make_range_filter r_filter filter_opts fdef with
          | .error e => .error e
          | .ok f => filters_loop af rest (acc ++ [f])
        else filters_loop af rest acc

/-- views.py 80-123: the `filters` block, from the
`type(requested_filters) is not dict` check through the loop. -/
def check_filters (data : List (String × Json)) (af : List (String × FacetDef)) :
    Except PyExc (List Json) :=
  match dataGet data "filters" (.obj []) with
  | .obj entries => filters_loop af entries []
  | _ => .error (.ocdApiError msgFiltersObject 400)

/-- The dict `parse_search_request` returns (views.py 125-132). -/
structure SearchIntent : Type where
  query : Json
  n_size : Int
  n_from : Int
  sort : String
  order : String
  facets : List (String × FacetDef)
  filters : List Json

/-- views.py 7-132, `parse_search_request(data)`: the checks in source
order, short-circuiting at the first raised exception.  Because the facet
block mutates the shared `AVAILABLE_FACETS` dicts through the
`facets[facet] = available_facets[facet]` alias, the state of that mapping
after the call is returned alongside the intent. -/
def parse_search_request (data : List (String × Json)) (cfg : Config) :
    Except PyExc (SearchIntent × List (String × FacetDef)) :=
  match check_query data with
  | .error e => .error e
  | .ok query =>
    match check_size data cfg with
    | .error e => .error e
    | .ok n_size =>
      match check_from data with
      | .error e => .error e
      | .ok n_from =>
        match check_sort data cfg with
        | .error e => .error e
        | .ok sort =>
          match check_order data with
          | .error e => .error e
          | .ok order =>
            match check_facets data cfg.availableFacets cfg with
            | .error e => .error e
            | .ok (facets, af') =>
              match check_filters data af' with
              | .error e => .error e
              | .ok filters =>
                .ok (⟨query, n_size, n_from, sort, order, facets, filters⟩, af')

/-- The requested facets as the engine query carries them. -/
def facets_to_json (fs : List (String × FacetDef)) : Json :=
  .obj (fs.map (fun p => (p.1, Json.obj p.2)))

/-- views.py 153-186: the `es_q` structure built in `search`.  The source
first sets `'filter': {}` and reassigns
`es_q['query']['filtered']['filter']` to the `bool`/`must` conjunction when
`search_req['filters']` is truthy (non-empty); the conditional is written at
the position of that key. -/
def build_es_query (req : SearchIntent) : Json :=
  .obj [
    ("query", .obj [("filtered", .obj [
      ("query", .obj [("simple_query_string", .obj [
        ("query", req.query),
        ("default_operator", .str "OR"),
        ("fields", .arr [.str "title^3", .str "authors^2", .str "description^2",
                         .str "meta.original_object_id", .str "all_text"])])]),
      ("filter",
        if req.filters.isEmpty then .obj []
        else .obj [("bool", .obj [("must", .arr req.filters)])])])]),
    ("facets", facets_to_json req.facets),
    ("size", .int req.n_size),
    ("from", .int req.n_from),
    ("sort", .obj [(req.sort, .obj [("order", .str req.order)])]),
    ("_source", .obj [("exclude", .arr [.str "all_text"])])]

/-- views.py 139-141, one iteration: `del hit['_index']; del hit['_type']`
(`KeyError` when a key is absent, `TypeError` when `hit` is not a dict). -/
def strip_hit (hit : Json) : Except PyExc Json :=
  match hit with
  | .obj hkvs =>
    match lookupKey "_index" hkvs with
    | none => .error (.keyError "_index")
    | some _ =>
      let h1 := delKey "_index" hkvs
      match lookupKey "_type" h1 with
      | none => .error (.keyError "_type")
      | some _ => .ok (.obj (delKey "_type" h1))
  | _ => .error .typeError

/-- views.py 139-141: the loop over the hit list, first raised exception
aborting. -/
def strip_hits : List Json → Except PyExc (List Json)
  | [] => .ok []
  | h :: rest =>
    match strip_hit h with
    | .error e => .error e
    | .ok h' =>
      match strip_hits rest with
      | .error e => .error e
      | .ok rest' => .ok (h' :: rest')

/-- `for hit in results['hits']['hits']` on an arbitrary value: lists are
iterated; iterating a non-empty dict yields a string key, and iterating a
non-empty string yields a character, either of which makes
`del hit['_index']` raise `TypeError`; an empty dict or string never runs
the body; anything else is not iterable. -/
def iter_hits (hits_val : Json) : Except PyExc Json :=
  match hits_val with
  | .arr hs =>
    match strip_hits hs with
    | .error e => .error e
    | .ok hs' => .ok (.arr hs')
  | .obj [] => .ok (.obj [])
  | .str "" => .ok (.str "")
  | _ => .error .typeError

/-- views.py 135-143, `format_search_results(results)`: deletes `_shards`
and `timed_out` at the top level, then strips `_index` and `_type` from
every hit of `results['hits']['hits']`, mutating `results` in place; the
result is returned.  A missing key raises `KeyError`. -/
def format_search_results (results : Json) : Except PyExc Json :=
  match results with
  | .obj kvs =>
    match lookupKey "_shards" kvs with
    | none => .error (.keyError "_shards")
    | some _ =>
      let k1 := delKey "_shards" kvs
      match lookupKey "timed_out" k1 with
      | none => .error (.keyError "timed_out")
      | some _ =>
        let k2 := delKey "timed_out" k1
        match lookupKey "hits" k2 with
        | none => .error (.keyError "hits")
        | some hobj =>
          match hobj with
          | .obj hkvs =>
            match lookupKey "hits" hkvs with
            | none => .error (.keyError "hits")
            | some hlist =>
              match iter_hits hlist with
              | .error e => .error e
              | .ok hlist' =>
                .ok (.obj (setKey "hits" (.obj (setKey "hits" hlist' hkvs)) k2))
          | _ => .error .typeError
  | _ => .error .typeError

/-- The path `q['query']['filtered']['filter']` of a built engine query, as
an `Option`: used to state which filter clause a query carries. -/
def filter_clause_path (q : Json) : Option Json :=
  ((jlook q "query").bind (fun v => jlook v "filtered")).bind (fun v => jlook v "filter")

/-- A sample `AVAILABLE_FACETS` schema: a `terms` facet `category` on field
`cat_field` and a `date_histogram` facet `date` on field `date_field`. -/
def sampleSchema : List (String × FacetDef) :=
  [("category", [("terms", .obj [("field", .str "cat_field"), ("size", .int 10)])]),
   ("date", [("date_histogram", .obj [("field", .str "date_field"), ("interval", .str "month")])])]

/-- A sample configuration with `DEFAULT_SEARCH_SIZE = 10` and
`MAX_SEARCH_SIZE = 100`. -/
def sampleConfig : Config :=
  { defaultSearchSize := 10
    maxSearchSize := 100
    sortableFields := ["_score", "date"]
    availableFacets := sampleSchema
    allowedDateIntervals := ["day", "month"] }

theorem lookupKey_delKey_self {α : Type} (k : String) (l : List (String × α)) :
    lookupKey k (delKey k l) = none := by
  induction l with
  | nil => rfl
  | cons p rest ih =>
    by_cases h : p.1 = k
    · simp [delKey, h, ih]
    · simp [delKey, lookupKey, h, ih]

theorem lookupKey_delKey_ne {α : Type} {k k' : String} (h : k' ≠ k)
    (l : List (String × α)) : lookupKey k' (delKey k l) = lookupKey k' l := by
  have hkk' : ¬(k = k') := fun hx => h hx.symm
  induction l with
  | nil => rfl
  | cons p rest ih =>
    by_cases hp : p.1 = k
    · simp [delKey, lookupKey, hp, hkk', ih]
    · simp [delKey, lookupKey, hp, ih]

theorem lookupKey_setKey_self {α : Type} (k : String) (v : α) (l : List (String × α)) :
    lookupKey k (setKey k v l) = some v := by
  induction l with
  | nil => simp [setKey, lookupKey]
  | cons p rest ih =>
    by_cases h : p.1 = k
    · simp [setKey, lookupKey, h]
    · simp [setKey, lookupKey, h, ih]

theorem lookupKey_setKey_ne {α : Type} {k k' : String} (h : k' ≠ k) (v : α)
    (l : List (String × α)) : lookupKey k' (setKey k v l) = lookupKey k' l := by
  have hkk' : ¬(k = k') := fun hx => h hx.symm
  induction l with
  | nil => simp [setKey, lookupKey, hkk']
  | cons p rest ih =>
    by_cases hp : p.1 = k
    · simp [setKey, lookupKey, hp, hkk', ih]
    · simp [setKey, lookupKey, hp, ih]

theorem lookupKey_any {α : Type} {k : String} {l : List (String × α)} {v : α}
    (h : lookupKey k l = some v) : l.any (fun p => p.1 == k) = true := by
  induction l with
  | nil => simp [lookupKey] at h
  | cons p rest ih =>
    by_cases hp : p.1 = k
    · simp [List.any, hp]
    · rw [lookupKey, if_neg hp] at h
      simp [List.any, ih h]

/-- C1 (code bug witness).  `facets[facet] = available_facets[facet]` aliases
the shared schema dict instead of deep-copying it, so applying the client
override `{"facets": {"category": {"size": 5}}}` rewrites
`AVAILABLE_FACETS['category']['terms']['size']` from `10` to `5`: the shared
`FacetSchema` is NOT identical before and after compile.  The first conjunct
evaluates the compiler and shows the returned `available_facets` state carries
`size = 5` for `category`; the second shows the schema held `size = 10` going
in. -/
theorem C1_facet_override_mutates_schema :
    parse_search_request
        [("query", .str "x"), ("facets", .obj [("category", .obj [("size", .int 5)])])]
        sampleConfig
      = .ok (⟨.str "x", 10, 0, "_score", "desc",
          [("category", [("terms", .obj [("field", .str "cat_field"), ("size", .int 5)])])],
          []⟩,
        [("category", [("terms", .obj [("field", .str "cat_field"), ("size", .int 5)])]),
         ("date", [("date_histogram", .obj [("field", .str "date_field"), ("interval", .str "month")])])]) ∧
    lookupKey "category" sampleConfig.availableFacets
      = some [("terms", .obj [("field", .str "cat_field"), ("size", .int 10)])] :=
  ⟨rfl, rfl⟩

/-- The built query always carries a `filter` member at
`query.filtered.filter`: the empty object when the intent has no filters
(the source's initial `'filter': {}` is never removed), and the single
`bool`/`must` conjunction of all filter entries otherwise. -/
theorem filter_member_eq (req : SearchIntent) :
    filter_clause_path (build_es_query req)
      = some (if req.filters.isEmpty then Json.obj []
              else Json.obj [("bool", Json.obj [("must", Json.arr req.filters)])]) := rfl

/-- C2 counterexample.  Compiling the request `{"query": "x"}` (no facets, no
filters) and building its query yields a query whose
`query.filtered.filter` member IS present — it holds the empty object `{}` —
refuting the claim that an empty filter sequence produces a query with no
filter clause at all. -/
theorem C2_counterexample :
    parse_search_request [("query", Json.str "x")] sampleConfig
        = .ok (⟨.str "x", 10, 0, "_score", "desc", [], []⟩, sampleSchema) ∧
    filter_clause_path (build_es_query ⟨.str "x", 10, 0, "_score", "desc", [], []⟩)
      = some (Json.obj []) :=
  ⟨rfl, rfl⟩

/-- C2 (amended).  For every intent with an empty filter sequence the built
query carries an empty-but-present `filter` member (`'filter': {}`), and for
every intent with a non-empty filter sequence it carries exactly the single
`bool`/`must` conjunction combining every filter entry. -/
theorem C2_filter_member (req : SearchIntent) :
    filter_clause_path (build_es_query req)
      = some (if req.filters.isEmpty then Json.obj []
              else Json.obj [("bool", Json.obj [("must", Json.arr req.filters)])]) :=
  filter_member_eq req

/-- C3 counterexample.  On an engine result lacking `_shards` (here
`{"hits": {"hits": []}, "took": 5}`), `format_search_results` raises an
uncaught `KeyError` — a crash, not a handled `OcdApiError` and not a no-op —
refuting the claim that it never crashes on malformed results. -/
theorem C3_counterexample :
    format_search_results (.obj [("hits", .obj [("hits", .arr [])]), ("took", .int 5)])
      = .error (.keyError "_shards") := rfl

/-- C3 (amended).  `format_search_results` assumes the engine-result shape:
when `_shards` is absent, when `timed_out` is absent after it, or when the
top-level or nested `hits` key is absent, the corresponding `del` /
subscription raises an uncaught `KeyError` naming that key. -/
theorem C3_missing_keys_raise_keyerror (kvs : List (String × Json)) :
    (lookupKey "_shards" kvs = none →
      format_search_results (.obj kvs) = .error (.keyError "_shards")) ∧
    (∀ v, lookupKey "_shards" kvs = some v →
      lookupKey "timed_out" (delKey "_shards" kvs) = none →
      format_search_results (.obj kvs) = .error (.keyError "timed_out")) ∧
    (∀ v w, lookupKey "_shards" kvs = some v →
      lookupKey "timed_out" (delKey "_shards" kvs) = some w →
      lookupKey "hits" (delKey "timed_out" (delKey "_shards" kvs)) = none →
      format_search_results (.obj kvs) = .error (.keyError "hits")) ∧
    (∀ v w hkvs, lookupKey "_shards" kvs = some v →
      lookupKey "timed_out" (delKey "_shards" kvs) = some w →
      lookupKey "hits" (delKey "timed_out" (delKey "_shards" kvs)) = some (.obj hkvs) →
      lookupKey "hits" hkvs = none →
      format_search_results (.obj kvs) = .error (.keyError "hits")) := by
  refine ⟨fun h1 => ?_, fun v h1 h2 => ?_, fun v w h1 h2 h3 => ?_, fun v w hkvs h1 h2 h3 h4 => ?_⟩
  · simp [format_search_results, h1]
  · simp [format_search_results, h1, h2]
  · simp [format_search_results, h1, h2, h3]
  · simp [format_search_results, h1, h2, h3, h4]

/-- C3 witness for the amended theorem: a result with `_shards` but no
`timed_out` raises `KeyError('timed_out')`. -/
theorem C3_witness :
    format_search_results (.obj [("_shards", .obj []), ("took", .int 5)])
      = .error (.keyError "timed_out") :=
  (C3_missing_keys_raise_keyerror [("_shards", .obj []), ("took", .int 5)]).2.1
    (.obj []) rfl rfl

/-- C4 counterexample.  The request `{"query": " "}` — a query that is empty
after trimming whitespace — passes the truthiness check (`if not query`) and
compiles successfully, refuting the claim that it fails with MissingQuery:
the source never trims. -/
theorem C4_counterexample :
    parse_search_request [("query", Json.str " ")] sampleConfig
      = .ok (⟨.str " ", 10, 0, "_score", "desc", [], []⟩, sampleSchema) := rfl

/-- C4 (amended).  A request whose `query` value is falsy (absent — the
`data.get` default `None` — or the empty string, or any other falsy value)
fails with MissingQuery; a request whose `query` is any non-empty string
passes the first check unchanged: no trimming is performed, so
whitespace-only strings pass. -/
theorem C4_query_truthiness (data : List (String × Json)) (cfg : Config) :
    (pyFalsy (dataGet data "query" Json.null) = true →
      parse_search_request data cfg = .error (.ocdApiError msgMissingQuery 400)) ∧
    (∀ s, dataGet data "query" Json.null = Json.str s → s ≠ "" →
      check_query data = .ok (.str s)) := by
  constructor
  · intro h
    have hq : check_query data = .error (.ocdApiError msgMissingQuery 400) := by
      simp [check_query, h]
    simp [parse_search_request, hq]
  · intro s hs hne
    simp [check_query, hs, pyFalsy, hne]

/-- C4 witness: an absent `query` fails with MissingQuery, a non-empty
string passes the check. -/
theorem C4_witness :
    parse_search_request [] sampleConfig = .error (.ocdApiError msgMissingQuery 400) ∧
    check_query [("query", Json.str "a")] = .ok (.str "a") :=
  ⟨(C4_query_truthiness [] sampleConfig).1 rfl,
   (C4_query_truthiness [("query", Json.str "a")] sampleConfig).2 "a" rfl (by decide)⟩

/-- C5 counterexample.  `{"query": "x", "size": null}`: `int(None)` raises
`TypeError`, which the source's `except ValueError` does not catch, so
compile crashes with an uncaught `TypeError` instead of failing with
InvalidSize — refuting the claim that every non-integer-parsable `size`
yields InvalidSize. -/
theorem C5_counterexample :
    parse_search_request [("query", .str "x"), ("size", .null)] sampleConfig
      = .error .typeError := rfl

/-- C5 (amended).  Under a truthy `query`: a `size` string that does not
parse as an integer fails with InvalidSize (`int` raises `ValueError`,
caught); a `size` value on which `int` raises `TypeError` (`null`, arrays,
objects) crashes uncaught; an integer `size` outside
`[0, MAX_SEARCH_SIZE]` fails with the range error; the boundary values `0`
and `MAX_SEARCH_SIZE` pass the size check; an absent `size` defaults to
`DEFAULT_SEARCH_SIZE` (which passes when within range). -/
theorem C5_size_validation (data : List (String × Json)) (cfg : Config)
    (hq : pyFalsy (dataGet data "query" Json.null) = false) :
    (∀ s, lookupKey "size" data = some (Json.str s) → pyStrToInt s = none →
      parse_search_request data cfg = .error (.ocdApiError msgInvalidSize 400)) ∧
    (∀ v, lookupKey "size" data = some v → pyInt v = .error .typeError →
      parse_search_request data cfg = .error .typeError) ∧
    (∀ n, lookupKey "size" data = some (Json.int n) →
      (n < 0 ∨ n > cfg.maxSearchSize) →
      parse_search_request data cfg
        = .error (.ocdApiError (msgSizeRange cfg.maxSearchSize) 400)) ∧
    (lookupKey "size" data = some (Json.int 0) → 0 ≤ cfg.maxSearchSize →
      check_size data cfg = .ok 0) ∧
    (lookupKey "size" data = some (Json.int cfg.maxSearchSize) →
      0 ≤ cfg.maxSearchSize → check_size data cfg = .ok cfg.maxSearchSize) ∧
    (lookupKey "size" data = none → 0 ≤ cfg.defaultSearchSize →
      cfg.defaultSearchSize ≤ cfg.maxSearchSize →
      check_size data cfg = .ok cfg.defaultSearchSize) := by
  have hcq : check_query data = .ok (dataGet data "query" Json.null) := by
    simp [check_query, hq]
  refine ⟨fun s h1 h2 => ?_, fun v h1 h2 => ?_, fun n h1 h2 => ?_,
    fun h1 h2 => ?_, fun h1 h2 => ?_, fun h1 h2 h3 => ?_⟩
  · have hcs : check_size data cfg = .error (.ocdApiError msgInvalidSize 400) := by
      simp [check_size, h1, pyInt, h2]
    simp [parse_search_request, hcq, hcs]
  · have hcs : check_size data cfg = .error PyExc.typeError := by
      simp [check_size, h1, h2]
    simp [parse_search_request, hcq, hcs]
  · have hcs : check_size data cfg
        = .error (.ocdApiError (msgSizeRange cfg.maxSearchSize) 400) := by
      simp [check_size, h1, pyInt, h2]
    simp [parse_search_request, hcq, hcs]
  · have h0 : ¬((0 : Int) < 0 ∨ (0 : Int) > cfg.maxSearchSize) := by
      push_neg
      exact ⟨le_refl 0, h2⟩
    simp [check_size, h1, pyInt, h0, h2]
  · have h0 : ¬(cfg.maxSearchSize < 0 ∨ cfg.maxSearchSize > cfg.maxSearchSize) := by
      push_neg
      exact ⟨h2, le_refl _⟩
    simp [check_size, h1, pyInt, h0, h2]
  · have h0 : ¬(cfg.defaultSearchSize < 0 ∨ cfg.defaultSearchSize > cfg.maxSearchSize) := by
      push_neg
      exact ⟨h2, h3⟩
    simp [check_size, h1, h0, h2, h3]

/-- C5 witness: each size behaviour at a concrete request against
`sampleConfig` (default 10, maximum 100). -/
theorem C5_witness :
    parse_search_request [("query", .str "x"), ("size", .str "abc")] sampleConfig
        = .error (.ocdApiError msgInvalidSize 400) ∧
    parse_search_request [("query", .str "x"), ("size", .arr [])] sampleConfig
        = .error .typeError ∧
    parse_search_request [("query", .str "x"), ("size", .int 101)] sampleConfig
        = .error (.ocdApiError (msgSizeRange 100) 400) ∧
    check_size [("query", .str "x"), ("size", .int 0)] sampleConfig = .ok 0 ∧
    check_size [("query", .str "x"), ("size", .int 100)] sampleConfig = .ok 100 ∧
    check_size [("query", .str "x")] sampleConfig = .ok 10 := by
  refine ⟨?_, ?_, ?_, ?_, ?_, ?_⟩
  · exact (C5_size_validation [("query", .str "x"), ("size", .str "abc")]
      sampleConfig rfl).1 "abc" rfl rfl
  · exact (C5_size_validation [("query", .str "x"), ("size", .arr [])]
      sampleConfig rfl).2.1 (.arr []) rfl rfl
  · exact (C5_size_validation [("query", .str "x"), ("size", .int 101)]
      sampleConfig rfl).2.2.1 101 rfl (Or.inr (by decide))
  · exact (C5_size_validation [("query", .str "x"), ("size", .int 0)]
      sampleConfig rfl).2.2.2.1 rfl (by decide)
  · exact (C5_size_validation [("query", .str "x"), ("size", .int 100)]
      sampleConfig rfl).2.2.2.2.1 rfl (by decide)
  · exact (C5_size_validation [("query", .str "x")]
      sampleConfig rfl).2.2.2.2.2 rfl (by decide) (by decide)

/-- C7.  Validation is fail-fast in the fixed source order query, size,
from, sort, order, facets, filters: whenever a check fails, compile reports
exactly that check's error, for every state of the later fields (each
`check_*` reads only its own field of the request).  So a request violating
several fields reports the single error of the earliest violated one and no
later validation is performed. -/
theorem C7_fail_fast (data : List (String × Json)) (cfg : Config) :
    (∀ e, check_query data = .error e →
      parse_search_request data cfg = .error e) ∧
    (∀ q e, check_query data = .ok q → check_size data cfg = .error e →
      parse_search_request data cfg = .error e) ∧
    (∀ q n e, check_query data = .ok q → check_size data cfg = .ok n →
      check_from data = .error e →
      parse_search_request data cfg = .error e) ∧
    (∀ q n m e, check_query data = .ok q → check_size data cfg = .ok n →
      check_from data = .ok m → check_sort data cfg = .error e →
      parse_search_request data cfg = .error e) ∧
    (∀ q n m s e, check_query data = .ok q → check_size data cfg = .ok n →
      check_from data = .ok m → check_sort data cfg = .ok s →
      check_order data = .error e →
      parse_search_request data cfg = .error e) ∧
    (∀ q n m s o e, check_query data = .ok q → check_size data cfg = .ok n →
      check_from data = .ok m → check_sort data cfg = .ok s →
      check_order data = .ok o →
      check_facets data cfg.availableFacets cfg = .error e →
      parse_search_request data cfg = .error e) ∧
    (∀ q n m s o fa af e, check_query data = .ok q → check_size data cfg = .ok n →
      check_from data = .ok m → check_sort data cfg = .ok s →
      check_order data = .ok o →
      check_facets data cfg.availableFacets cfg = .ok (fa, af) →
      check_filters data af = .error e →
      parse_search_request data cfg = .error e) := by
  refine ⟨fun e h1 => ?_, fun q e h1 h2 => ?_, fun q n e h1 h2 h3 => ?_,
    fun q n m e h1 h2 h3 h4 => ?_, fun q n m s e h1 h2 h3 h4 h5 => ?_,
    fun q n m s o e h1 h2 h3 h4 h5 h6 => ?_,
    fun q n m s o fa af e h1 h2 h3 h4 h5 h6 h7 => ?_⟩
  · simp [parse_search_request, h1]
  · simp [parse_search_request, h1, h2]
  · simp [parse_search_request, h1, h2, h3]
  · simp [parse_search_request, h1, h2, h3, h4]
  · simp [parse_search_request, h1, h2, h3, h4, h5]
  · simp [parse_search_request, h1, h2, h3, h4, h5, h6]
  · simp [parse_search_request, h1, h2, h3, h4, h5, h6, h7]

/-- C7 witness: requests violating several fields at once report the
earliest field's error — `{"query": "", "size": "abc", "order": 5}` reports
MissingQuery; with `"query": "x"` it reports InvalidSize; with a valid size
and `{"sort": "bogus", "order": "bogus"}` it reports InvalidSort. -/
theorem C7_witness :
    parse_search_request
        [("query", .str ""), ("size", .str "abc"), ("order", .int 5)] sampleConfig
      = .error (.ocdApiError msgMissingQuery 400) ∧
    parse_search_request
        [("query", .str "x"), ("size", .str "abc"), ("order", .int 5)] sampleConfig
      = .error (.ocdApiError msgInvalidSize 400) ∧
    parse_search_request
        [("query", .str "x"), ("sort", .str "bogus"), ("order", .str "bogus")]
        sampleConfig
      = .error (.ocdApiError (msgInvalidSort ["_score", "date"]) 400) := by
  refine ⟨?_, ?_, ?_⟩
  · exact (C7_fail_fast [("query", .str ""), ("size", .str "abc"), ("order", .int 5)]
      sampleConfig).1 _ rfl
  · exact (C7_fail_fast [("query", .str "x"), ("size", .str "abc"), ("order", .int 5)]
      sampleConfig).2.1 _ _ rfl rfl
  · exact (C7_fail_fast
      [("query", .str "x"), ("sort", .str "bogus"), ("order", .str "bogus")]
      sampleConfig).2.2.2.1 _ _ _ _ rfl rfl rfl rfl

/-- C8.  A filter entry naming a schema `date_histogram` facet whose options
are a mapping compiles to a `range` filter on the schema-declared field:
`from` and `to` are copied verbatim when present (no type validation of
their values), and when neither is present the empty range clause is still
emitted. -/
theorem C8_range_filter (data : List (String × Json)) (cfg : Config)
    (name : String) (okvs : List (String × Json)) (inner : Json)
    (rest : FacetDef) (field : String) (qv : Json) (ns nf : Int)
    (srt ord : String) (fcs af : List (String × FacetDef))
    (hq : check_query data = .ok qv)
    (hsz : check_size data cfg = .ok ns)
    (hfr : check_from data = .ok nf)
    (hsort : check_sort data cfg = .ok srt)
    (hord : check_order data = .ok ord)
    (hfac : check_facets data cfg.availableFacets cfg = .ok (fcs, af))
    (hflt : dataGet data "filters" (.obj []) = .obj [(name, .obj okvs)])
    (hlk : lookupKey name af = some (("date_histogram", inner) :: rest))
    (hfld : pyGetItem inner "field" = .ok (.str field)) :
    parse_search_request data cfg
      = .ok (⟨qv, ns, nf, srt, ord, fcs,
          [Json.obj [("range", Json.obj [(field, Json.obj
            ((match lookupKey "from" okvs with
              | some v => [("from", v)] | none => []) ++
             (match lookupKey "to" okvs with
              | some v => [("to", v)] | none => [])))])]]⟩, af) := by
  have hrange : make_range_filter name (.obj okvs) (("date_histogram", inner) :: rest)
      = .ok (.obj [("range", .obj [(field, .obj
          ((match lookupKey "from" okvs with
            | some v => [("from", v)] | none => []) ++
           (match lookupKey "to" okvs with
            | some v => [("to", v)] | none => [])))])]) := by
    cases hfrom : lookupKey "from" okvs <;> cases hto : lookupKey "to" okvs <;>
      simp [make_range_filter, lookupKey, hfld, hfrom, hto, setKey]
  have hcf : check_filters data af = .ok [Json.obj [("range", Json.obj [(field, Json.obj
      ((match lookupKey "from" okvs with
        | some v => [("from", v)] | none => []) ++
       (match lookupKey "to" okvs with
        | some v => [("to", v)] | none => [])))])]] := by
    simp [check_filters, hflt, filters_loop, hlk, hrange]
  simp [parse_search_request, hq, hsz, hfr, hsort, hord, hfac, hcf]

/-- C8 witness: against `sampleSchema`,
`{"query": "x", "filters": {"date": {}}}` emits the no-op empty range
clause on `date_field`, and
`{"query": "x", "filters": {"date": {"from": "2012", "to": 13}}}` copies
both bounds verbatim (the integer 13 is not validated). -/
theorem C8_witness :
    parse_search_request [("query", .str "x"), ("filters", .obj [("date", .obj [])])]
        sampleConfig
      = .ok (⟨.str "x", 10, 0, "_score", "desc", [],
          [Json.obj [("range", Json.obj [("date_field", Json.obj [])])]]⟩,
        sampleSchema) ∧
    parse_search_request
        [("query", .str "x"),
         ("filters", .obj [("date", .obj [("from", .str "2012"), ("to", .int 13)])])]
        sampleConfig
      = .ok (⟨.str "x", 10, 0, "_score", "desc", [],
          [Json.obj [("range", Json.obj [("date_field",
            Json.obj [("from", .str "2012"), ("to", .int 13)])])]]⟩,
        sampleSchema) := by
  constructor
  · exact C8_range_filter [("query", .str "x"), ("filters", .obj [("date", .obj [])])]
      sampleConfig "date" [] (.obj [("field", .str "date_field"), ("interval", .str "month")])
      [] "date_field" (.str "x") 10 0 "_score" "desc" [] sampleSchema
      rfl rfl rfl rfl rfl rfl rfl rfl rfl
  · exact C8_range_filter
      [("query", .str "x"),
       ("filters", .obj [("date", .obj [("from", .str "2012"), ("to", .int 13)])])]
      sampleConfig "date" [("from", .str "2012"), ("to", .int 13)]
      (.obj [("field", .str "date_field"), ("interval", .str "month")])
      [] "date_field" (.str "x") 10 0 "_score" "desc" [] sampleSchema
      rfl rfl rfl rfl rfl rfl rfl rfl rfl

/-- The filter loop on a run of well-formed `terms` entries: each entry
contributes `{'terms': {field: values}}` in input order, appended to the
accumulator. -/
theorem filters_loop_terms_ok (af : List (String × FacetDef))
    (field : String × Json → String) (vals : String × Json → List Json)
    (entries : List (String × Json)) :
    ∀ acc : List Json,
    (∀ p ∈ entries,
      (∃ inner frest, lookupKey p.1 af = some (("terms", inner) :: frest) ∧
        pyGetItem inner "field" = .ok (.str (field p))) ∧
      (∃ okvs, p.2 = .obj okvs ∧ lookupKey "terms" okvs = some (.arr (vals p))) ∧
      terms_elems_ok (vals p) = true) →
    filters_loop af entries acc
      = .ok (acc ++ entries.map
          (fun p => Json.obj [("terms", Json.obj [(field p, Json.arr (vals p))])])) := by
  induction entries with
  | nil => intro acc h; simp [filters_loop]
  | cons p rest ih =>
    obtain ⟨pn, po⟩ := p
    intro acc h
    obtain ⟨⟨inner, frest, hlk, hfld⟩, ⟨okvs, hopts, hterms⟩, helems⟩ := h (pn, po) (by simp)
    have hopts' : po = Json.obj okvs := hopts
    subst hopts'
    have hany : (okvs.any fun q => q.1 == "terms") = true := lookupKey_any hterms
    have hc : pyContains "terms" (Json.obj okvs) = .ok true := by
      simp only [pyContains, hany]
    have hgt : pyGetItem (Json.obj okvs) "terms" = .ok (.arr (vals (pn, Json.obj okvs))) := by
      simp [pyGetItem, hterms]
    have hmk : make_terms_filter pn (Json.obj okvs) (("terms", inner) :: frest)
        = .ok (.obj [("terms",
            .obj [(field (pn, Json.obj okvs), .arr (vals (pn, Json.obj okvs)))])]) := by
      simp [make_terms_filter, hc, hgt, helems, hfld, lookupKey]
    have hrec := ih (acc ++ [Json.obj [("terms",
        .obj [(field (pn, Json.obj okvs), .arr (vals (pn, Json.obj okvs)))])]])
      (fun q hq => h q (List.mem_cons_of_mem _ hq))
    simp only [filters_loop, hlk, hmk]
    rw [hrec]
    simp

/-- C6.  Every filter entry naming a schema `terms` facet whose `terms`
value is a list of only strings and integers compiles to
`{'terms': {schema_field: values}}` with the values in unmodified order,
one per entry in input order, and the built query wraps all of them in a
single `bool`/`must` conjunction clause. -/
theorem C6_terms_filters (data : List (String × Json)) (cfg : Config)
    (fentries : List (String × Json))
    (field : String × Json → String) (vals : String × Json → List Json)
    (qv : Json) (ns nf : Int) (srt ord : String)
    (fcs af : List (String × FacetDef))
    (hq : check_query data = .ok qv)
    (hsz : check_size data cfg = .ok ns)
    (hfr : check_from data = .ok nf)
    (hsort : check_sort data cfg = .ok srt)
    (hord : check_order data = .ok ord)
    (hfac : check_facets data cfg.availableFacets cfg = .ok (fcs, af))
    (hflt : dataGet data "filters" (.obj []) = .obj fentries)
    (hent : ∀ p ∈ fentries,
      (∃ inner frest, lookupKey p.1 af = some (("terms", inner) :: frest) ∧
        pyGetItem inner "field" = .ok (.str (field p))) ∧
      (∃ okvs, p.2 = .obj okvs ∧ lookupKey "terms" okvs = some (.arr (vals p))) ∧
      terms_elems_ok (vals p) = true) :
    parse_search_request data cfg
      = .ok (⟨qv, ns, nf, srt, ord, fcs, fentries.map
          (fun p => Json.obj [("terms", Json.obj [(field p, Json.arr (vals p))])])⟩, af) ∧
    (fentries ≠ [] →
      filter_clause_path (build_es_query ⟨qv, ns, nf, srt, ord, fcs, fentries.map
          (fun p => Json.obj [("terms", Json.obj [(field p, Json.arr (vals p))])])⟩)
        = some (Json.obj [("bool", Json.obj [("must", Json.arr (fentries.map
            (fun p => Json.obj [("terms", Json.obj [(field p, Json.arr (vals p))])])))])])) := by
  have hcf : check_filters data af = .ok (fentries.map
      (fun p => Json.obj [("terms", Json.obj [(field p, Json.arr (vals p))])])) := by
    simp [check_filters, hflt]
    simpa using filters_loop_terms_ok af field vals fentries [] hent
  constructor
  · simp [parse_search_request, hq, hsz, hfr, hsort, hord, hfac, hcf]
  · intro hne
    rw [filter_member_eq]
    have : (fentries.map
        (fun p => Json.obj [("terms", Json.obj [(field p, Json.arr (vals p))])])).isEmpty
        = false := by
      cases fentries with
      | nil => exact absurd rfl hne
      | cons a l => rfl
    simp [this]

/-- C6 witness: the spec scenario
`{"query": "x", "filters": {"category": {"terms": ["energy", 42]}}}` against
`sampleSchema` (where `category` is a `terms` facet on `cat_field`) produces
`TermsFilter{field: "cat_field", values: ["energy", 42]}` and a built query
whose filter clause is the single `must` conjunction wrapping it. -/
theorem C6_witness :
    parse_search_request
        [("query", .str "x"),
         ("filters", .obj [("category", .obj [("terms", .arr [.str "energy", .int 42])])])]
        sampleConfig
      = .ok (⟨.str "x", 10, 0, "_score", "desc", [],
          [Json.obj [("terms", Json.obj [("cat_field", Json.arr [.str "energy", .int 42])])]]⟩,
        sampleSchema) ∧
    filter_clause_path (build_es_query ⟨.str "x", 10, 0, "_score", "desc", [],
        [Json.obj [("terms", Json.obj [("cat_field", Json.arr [.str "energy", .int 42])])]]⟩)
      = some (Json.obj [("bool", Json.obj [("must", Json.arr
          [Json.obj [("terms", Json.obj [("cat_field", Json.arr [.str "energy", .int 42])])]])])]) := by
  have h := C6_terms_filters
    [("query", .str "x"),
     ("filters", .obj [("category", .obj [("terms", .arr [.str "energy", .int 42])])])]
    sampleConfig
    [("category", .obj [("terms", .arr [.str "energy", .int 42])])]
    (fun _ => "cat_field") (fun _ => [.str "energy", .int 42])
    (.str "x") 10 0 "_score" "desc" [] sampleSchema
    rfl rfl rfl rfl rfl rfl rfl
    (by
      intro p hp
      simp only [List.mem_singleton] at hp
      subst hp
      exact ⟨⟨.obj [("field", .str "cat_field"), ("size", .int 10)], [], rfl, rfl⟩,
        ⟨[("terms", .arr [.str "energy", .int 42])], rfl, rfl⟩, rfl⟩)
  exact ⟨h.1, h.2 (by simp)⟩

/-- A well-formed hit: a dict containing `_index` and `_type`. -/
def hit_wf (h : Json) : Bool :=
  match h with
  | .obj o => (lookupKey "_index" o).isSome && (lookupKey "_type" o).isSome
  | _ => false

/-- `h'` is `h` with exactly `_index` and `_type` removed: both are gone
and every other key's value is unchanged. -/
def hit_stripped (h h' : Json) : Prop :=
  ∀ o, h = .obj o → ∃ o', h' = .obj o' ∧
    lookupKey "_index" o' = none ∧ lookupKey "_type" o' = none ∧
    ∀ k, k ≠ "_index" → k ≠ "_type" → lookupKey k o' = lookupKey k o

theorem strip_hits_ok (hs : List Json) (hall : hs.all hit_wf = true) :
    ∃ hs', strip_hits hs = .ok hs' ∧ List.Forall₂ hit_stripped hs hs' := by
  induction hs with
  | nil => exact ⟨[], rfl, .nil⟩
  | cons h rest ih =>
    rw [List.all_cons, Bool.and_eq_true] at hall
    obtain ⟨hw, hrest⟩ := hall
    obtain ⟨rest', hr, hf⟩ := ih hrest
    cases h with
    | obj o =>
      rw [hit_wf, Bool.and_eq_true, Option.isSome_iff_exists, Option.isSome_iff_exists] at hw
      obtain ⟨⟨vi, hvi⟩, vt, hvt⟩ := hw
      have hvt' : lookupKey "_type" (delKey "_index" o) = some vt := by
        rw [lookupKey_delKey_ne (by decide) o]; exact hvt
      have hsh : strip_hit (.obj o) = .ok (.obj (delKey "_type" (delKey "_index" o))) := by
        simp [strip_hit, hvi, hvt']
      refine ⟨.obj (delKey "_type" (delKey "_index" o)) :: rest', ?_, ?_⟩
      · simp [strip_hits, hsh, hr]
      · refine List.Forall₂.cons ?_ hf
        intro o' ho'
        obtain rfl : o = o' := by injection ho'
        refine ⟨delKey "_type" (delKey "_index" o), rfl, ?_, lookupKey_delKey_self _ _, ?_⟩
        · rw [lookupKey_delKey_ne (by decide), lookupKey_delKey_self]
        · intro k hki hkt
          rw [lookupKey_delKey_ne hkt, lookupKey_delKey_ne hki]
    | null => simp [hit_wf] at hw
    | bool b => simp [hit_wf] at hw
    | int n => simp [hit_wf] at hw
    | str s => simp [hit_wf] at hw
    | arr xs => simp [hit_wf] at hw

/-- C9.  On an engine result carrying `_shards`, `timed_out` and a hit list
whose hits each carry `_index` and `_type`, `format_search_results` removes
exactly those fields — `_shards` and `timed_out` at the top level, `_index`
and `_type` from every hit — and leaves every other top-level, hits-level
and per-hit field unchanged. -/
theorem C9_format_strips_meta (kvs hkvs : List (String × Json)) (hs : List Json)
    (h1 : (lookupKey "_shards" kvs).isSome = true)
    (h2 : (lookupKey "timed_out" kvs).isSome = true)
    (h3 : lookupKey "hits" kvs = some (.obj hkvs))
    (h4 : lookupKey "hits" hkvs = some (.arr hs))
    (h5 : hs.all hit_wf = true) :
    ∃ kvs', format_search_results (.obj kvs) = .ok (.obj kvs') ∧
      lookupKey "_shards" kvs' = none ∧
      lookupKey "timed_out" kvs' = none ∧
      (∀ k, k ≠ "_shards" → k ≠ "timed_out" → k ≠ "hits" →
        lookupKey k kvs' = lookupKey k kvs) ∧
      ∃ hkvs', lookupKey "hits" kvs' = some (.obj hkvs') ∧
        (∀ k, k ≠ "hits" → lookupKey k hkvs' = lookupKey k hkvs) ∧
        ∃ hs', lookupKey "hits" hkvs' = some (.arr hs') ∧
          List.Forall₂ hit_stripped hs hs' := by
  obtain ⟨vs, hvs⟩ := Option.isSome_iff_exists.mp h1
  obtain ⟨vt, hvt⟩ := Option.isSome_iff_exists.mp h2
  obtain ⟨hs', hstrip, hf⟩ := strip_hits_ok hs h5
  have hvt1 : lookupKey "timed_out" (delKey "_shards" kvs) = some vt := by
    rw [lookupKey_delKey_ne (by decide)]; exact hvt
  have h3' : lookupKey "hits" (delKey "timed_out" (delKey "_shards" kvs))
      = some (.obj hkvs) := by
    rw [lookupKey_delKey_ne (by decide), lookupKey_delKey_ne (by decide)]; exact h3
  have hfmt : format_search_results (.obj kvs)
      = .ok (.obj (setKey "hits" (.obj (setKey "hits" (.arr hs') hkvs))
          (delKey "timed_out" (delKey "_shards" kvs)))) := by
    simp [format_search_results, hvs, hvt1, h3', h4, iter_hits, hstrip]
  refine ⟨_, hfmt, ?_, ?_, ?_, setKey "hits" (.arr hs') hkvs,
    lookupKey_setKey_self _ _ _, ?_, hs', lookupKey_setKey_self _ _ _, hf⟩
  · rw [lookupKey_setKey_ne (by decide), lookupKey_delKey_ne (by decide),
      lookupKey_delKey_self]
  · rw [lookupKey_setKey_ne (by decide), lookupKey_delKey_self]
  · intro k hks hkt hkh
    rw [lookupKey_setKey_ne hkh, lookupKey_delKey_ne hkt, lookupKey_delKey_ne hks]
  · intro k hkh
    rw [lookupKey_setKey_ne hkh]

/-- C9 witness: a concrete engine result — `_shards`, `took`, `timed_out`,
and one hit carrying `_index`, `_type`, `_id`, `_source` — shaped by
`format_search_results`, with the five metadata fields gone and `took`,
`total`, `_id`, `_source` untouched. -/
theorem C9_witness :
    ∃ kvs', format_search_results (.obj
        [("_shards", .obj [("total", .int 1)]), ("took", .int 3),
         ("timed_out", .bool false),
         ("hits", .obj [("total", .int 1),
           ("hits", .arr [.obj [("_index", .str "i"), ("_type", .str "t"),
             ("_id", .str "1"), ("_source", .obj [])]])])])
      = .ok (.obj kvs') ∧
      lookupKey "_shards" kvs' = none ∧
      lookupKey "timed_out" kvs' = none ∧
      (∀ k, k ≠ "_shards" → k ≠ "timed_out" → k ≠ "hits" →
        lookupKey k kvs' = lookupKey k
          [("_shards", Json.obj [("total", .int 1)]), ("took", Json.int 3),
           ("timed_out", Json.bool false),
           ("hits", Json.obj [("total", .int 1),
             ("hits", .arr [.obj [("_index", .str "i"), ("_type", .str "t"),
               ("_id", .str "1"), ("_source", .obj [])]])])]) ∧
      ∃ hkvs', lookupKey "hits" kvs' = some (.obj hkvs') ∧
        (∀ k, k ≠ "hits" → lookupKey k hkvs' = lookupKey k
          [("total", Json.int 1),
           ("hits", Json.arr [.obj [("_index", .str "i"), ("_type", .str "t"),
             ("_id", .str "1"), ("_source", .obj [])]])]) ∧
        ∃ hs', lookupKey "hits" hkvs' = some (.arr hs') ∧
          List.Forall₂ hit_stripped
            [.obj [("_index", .str "i"), ("_type", .str "t"),
              ("_id", .str "1"), ("_source", .obj [])]] hs' :=
  C9_format_strips_meta _ _ _ rfl rfl rfl rfl rfl

/-- C10.  A present `query` key holding a falsy non-string value (the
integer 0, `false`, `null`, the empty list, the empty object) fails with
MissingQuery: the check `if not query` is a truthiness test on the value,
not a test for absence or empty string. -/
theorem C10_falsy_nonstring_query (data : List (String × Json)) (cfg : Config)
    (v : Json) (hv : lookupKey "query" data = some v) (hf : pyFalsy v = true)
    (hns : ∀ s, v ≠ Json.str s) :
    parse_search_request data cfg = .error (.ocdApiError msgMissingQuery 400) := by
  have hq : check_query data = .error (.ocdApiError msgMissingQuery 400) := by
    simp [check_query, dataGet, hv, hf]
  simp [parse_search_request, hq]

/-- C10 witness: `{"query": 0}` fails with MissingQuery. -/
theorem C10_witness :
    parse_search_request [("query", Json.int 0)] sampleConfig
      = .error (.ocdApiError msgMissingQuery 400) :=
  C10_falsy_nonstring_query [("query", Json.int 0)] sampleConfig (Json.int 0)
    rfl rfl (fun s h => Json.noConfusion h)

end OCD
